import Mathlib

/-
Verification of the content-team orchestration pipeline.
Shallow embedding of the TypeScript sources:
  src/services/geminiService.ts  (retry wrapper, JSON extraction, agent bodies)
  src/unnamed/part_000           (orchestrator, ledger, phase logic)
  src/unnamed/part_005           (constants, initial blueprint)
Strings use \x7b and \x7d escapes for literal braces.
-/

namespace Palzani

/-! ## String helpers -/

/-- Index of the first occurrence of a character in a list, as in
JavaScript String.indexOf returning -1 encoded by Option. -/
def firstIdx (c : Char) : List Char → Option Nat
  | [] => none
  | x :: xs => if x = c then some 0 else (firstIdx c xs).map (· + 1)

/-- Index of the last occurrence of a character in a list, as in
JavaScript String.lastIndexOf returning -1 encoded by Option. -/
def lastIdx (c : Char) : List Char → Option Nat
  | [] => none
  | x :: xs =>
    match lastIdx c xs with
    | some i => some (i + 1)
    | none => if x = c then some 0 else none

/-- Position i holds character c and no earlier position does. -/
def IsFirstOccur (c : Char) (l : List Char) (i : Nat) : Prop :=
  l.get? i = some c ∧ ∀ k, k < i → l.get? k ≠ some c

/-- Position j holds character c and no later position does. -/
def IsLastOccur (c : Char) (l : List Char) (j : Nat) : Prop :=
  l.get? j = some c ∧ ∀ k, k < l.length → j < k → l.get? k ≠ some c

instance (c : Char) (l : List Char) (i : Nat) : Decidable (IsFirstOccur c l i) := by
  unfold IsFirstOccur; infer_instance

instance (c : Char) (l : List Char) (j : Nat) : Decidable (IsLastOccur c l j) := by
  unfold IsLastOccur; infer_instance

theorem firstIdx_iff (c : Char) (l : List Char) (i : Nat) :
    firstIdx c l = some i ↔ IsFirstOccur c l i := by
  induction l generalizing i with
  | nil => simp [firstIdx, IsFirstOccur]
  | cons x xs ih =>
    by_cases hx : x = c
    · subst hx
      simp only [firstIdx, if_pos rfl]
      constructor
      · rintro h
        cases h
        exact ⟨rfl, fun k hk => absurd hk (Nat.not_lt_zero k)⟩
      · rintro ⟨hget, hmin⟩
        cases i with
        | zero => rfl
        | succ n => exact absurd rfl (hmin 0 (Nat.succ_pos n))
    · simp only [firstIdx, if_neg hx]
      constructor
      · rintro h
        rcases Option.map_eq_some'.mp h with ⟨m, hm, rfl⟩
        rcases (ih m).mp hm with ⟨hget, hmin⟩
        refine ⟨hget, fun k hk => ?_⟩
        cases k with
        | zero => simp only [List.get?]; intro hc; exact hx (Option.some.inj hc)
        | succ n => exact hmin n (Nat.lt_of_succ_lt_succ hk)
      · rintro ⟨hget, hmin⟩
        cases i with
        | zero =>
          exfalso; apply hx
          exact Option.some.inj hget
        | succ n =>
          have hxs : firstIdx c xs = some n := by
            refine (ih n).mpr ⟨hget, fun k hk => ?_⟩
            exact hmin (k + 1) (Nat.succ_lt_succ hk)
          rw [hxs]; rfl

theorem lastIdx_iff (c : Char) (l : List Char) (j : Nat) :
    lastIdx c l = some j ↔ IsLastOccur c l j := by
  induction l generalizing j with
  | nil => simp [lastIdx, IsLastOccur]
  | cons x xs ih =>
    simp only [lastIdx]
    cases hxs : lastIdx c xs with
    | some m =>
      rcases (ih m).mp hxs with ⟨hget, hmax⟩
      constructor
      · rintro h
        cases h
        refine ⟨hget, fun k hk hjk => ?_⟩
        cases k with
        | zero => exact absurd hjk (Nat.not_lt_zero _)
        | succ n =>
          exact hmax n (Nat.lt_of_succ_lt_succ hk) (Nat.lt_of_succ_lt_succ hjk)
      · rintro ⟨hget', hmax'⟩
        cases j with
        | zero =>
          exfalso
          have hlen : m < xs.length := List.get?_eq_some.mp hget |>.1
          exact hmax' (m + 1) (Nat.succ_lt_succ hlen) (Nat.succ_pos m) hget
        | succ n =>
          have : lastIdx c xs = some n := by
            refine (ih n).mpr ⟨hget', fun k hk hnk => ?_⟩
            exact hmax' (k + 1) (Nat.succ_lt_succ hk) (Nat.succ_lt_succ hnk)
          rw [hxs] at this
          cases this
          rfl
    | none =>
      have hno : ∀ m, xs.get? m ≠ some c := by
        intro m hm
        have hlt : m < xs.length := List.get?_eq_some.mp hm |>.1
        have : ∃ i, lastIdx c xs = some i := by
          clear ih hxs
          induction xs generalizing m with
          | nil => simp at hm
          | cons y ys ihy =>
            simp only [lastIdx]
            cases hys : lastIdx c ys with
            | some i => exact ⟨i + 1, rfl⟩
            | none =>
              cases m with
              | zero =>
                have : y = c := Option.some.inj hm
                exact ⟨0, by simp [this]⟩
              | succ n =>
                rcases ihy n hm (Nat.lt_of_succ_lt_succ hlt) with ⟨i, hi⟩
                rw [hys] at hi
                cases hi
        rcases this with ⟨i, hi⟩
        rw [hxs] at hi
        cases hi
      by_cases hx : x = c
      · subst hx
        simp only [if_pos rfl]
        constructor
        · rintro h
          cases h
          refine ⟨rfl, fun k _ hk => ?_⟩
          cases k with
          | zero => exact absurd hk (Nat.not_lt_zero _)
          | succ n => exact hno n
        · rintro ⟨hget', _⟩
          cases j with
          | zero => rfl
          | succ n => exact absurd hget' (hno n)
      · simp only [if_neg hx]
        constructor
        · rintro h; cases h
        · rintro ⟨hget', _⟩
          cases j with
          | zero => exact absurd (Option.some.inj hget') hx
          | succ n => exact absurd hget' (hno n)

/-! ## JSON extraction (geminiService.ts, cleanJson) -/

/-- Does the character list begin with the given needle. -/
def beginsWith : List Char → List Char → Bool
  | [], _ => true
  | _ :: _, [] => false
  | a :: as, b :: bs => a = b && beginsWith as bs

/-- Global leftmost non-overlapping replacement, as performed by a
JavaScript global-regex replace over a literal pattern. The fuel argument
is the remaining haystack length, so the recursion is structural. -/
def replaceGo (needle repl : List Char) : Nat → List Char → List Char
  | _, [] => []
  | 0, l => l
  | fuel + 1, c :: cs =>
    if !needle.isEmpty && beginsWith needle (c :: cs) then
      repl ++ replaceGo needle repl fuel (List.drop (needle.length - 1) cs)
    else c :: replaceGo needle repl fuel cs

/-- String-level wrapper of replaceGo. -/
def replaceAll (s pat repl : String) : String :=
  String.mk (replaceGo pat.toList repl.toList s.toList.length s.toList)

/-- JavaScript String.trim: drop whitespace from both ends. -/
def jsTrim (s : String) : String :=
  String.mk (((s.toList.dropWhile Char.isWhitespace).reverse.dropWhile Char.isWhitespace).reverse)

/-- Fallback cleaning branch of cleanJson: strip markdown fences then trim,
embedding text.replace over code fences followed by trim. -/
def cleanJsonFallback (text : String) : String :=
  jsTrim (replaceAll (replaceAll text "```json" "") "```" "")

/-- Embedding of cleanJson from geminiService.ts lines 43 to 56. An empty
string is JavaScript-falsy, so the guard returns the literal object text. -/
def cleanJson (text : String) : String :=
  if text = "" then "\x7b\x7d"
  else
    match firstIdx '\x7b' text.toList, lastIdx '\x7d' text.toList with
    | some i, some j =>
      if i < j then String.mk ((text.toList.drop i).take (j + 1 - i))
      else cleanJsonFallback text
    | some _, none => cleanJsonFallback text
    | none, _ => cleanJsonFallback text

/-- JavaScript or-default on an optional string: undefined and the empty
string are both falsy, embedding the pattern value OR fallback. -/
def jsOrStr (o : Option String) (d : String) : String :=
  match o with
  | none => d
  | some s => if s = "" then d else s

/-- Embedding of the pattern response.text OR the literal object text, as
used before JSON extraction in the Researcher and Strategist agents. -/
def orEmptyObj (t : Option String) : String :=
  jsOrStr t "\x7b\x7d"

/-! ## Retry wrapper (geminiService.ts, withRetry) -/

/-- Model of a JavaScript error value as inspected by withRetry. -/
structure JsErr where
  status : Option Nat
  code : Option Nat
  message : Option String
  deriving DecidableEq, Repr

/-- Does the haystack contain the needle as a contiguous run, embedding
JavaScript String.includes. -/
def containsSub (needle : List Char) : List Char → Bool
  | [] => beginsWith needle []
  | c :: cs => beginsWith needle (c :: cs) || containsSub needle cs

/-- JavaScript message.includes check lifted to an optional message. -/
def msgIncl (m : Option String) (needle : String) : Bool :=
  match m with
  | none => false
  | some s => containsSub needle.toList s.toList

/-- Rate-limit signature from withRetry: status 429, code 429, or a message
containing 429 or quota. -/
def isRateLimitErr (e : JsErr) : Bool :=
  e.status == some 429 || e.code == some 429 ||
    msgIncl e.message "429" || msgIncl e.message "quota"

/-- Server-overload signature from withRetry: status 503 or code 503. -/
def isOverloadErr (e : JsErr) : Bool :=
  e.status == some 503 || e.code == some 503

/-- Transient-failure signature: rate limit or server overload. -/
def isTransientErr (e : JsErr) : Bool :=
  isRateLimitErr e || isOverloadErr e

/-- Embedding of withRetry. The wrapped operation is modelled as a function
from the call index to an outcome; the result pairs the final outcome with
the list of waits performed, in order. -/
def withRetryAux {α : Type} (fn : Nat → Except JsErr α)
    (retries delayMs idx : Nat) : Except JsErr α × List Nat :=
  match fn idx, retries with
  | .ok v, _ => (.ok v, [])
  | .error e, 0 => (.error e, [])
  | .error e, r + 1 =>
    if isTransientErr e then
      ((withRetryAux fn r (delayMs * 2) (idx + 1)).1,
        delayMs :: (withRetryAux fn r (delayMs * 2) (idx + 1)).2)
    else (.error e, [])

/-- withRetry with the default budget of 3 retries and initial 5000 ms wait. -/
def withRetry {α : Type} (fn : Nat → Except JsErr α) : Except JsErr α × List Nat :=
  withRetryAux fn 3 5000 0

theorem withRetryAux_ok {α : Type} (fn : Nat → Except JsErr α) (r d i : Nat)
    (v : α) (h : fn i = .ok v) : withRetryAux fn r d i = (.ok v, []) := by
  unfold withRetryAux
  rw [h]

theorem withRetryAux_err_zero {α : Type} (fn : Nat → Except JsErr α) (d i : Nat)
    (e : JsErr) (h : fn i = .error e) : withRetryAux fn 0 d i = (.error e, []) := by
  unfold withRetryAux
  rw [h]

theorem withRetryAux_err_step {α : Type} (fn : Nat → Except JsErr α) (r d i : Nat)
    (e : JsErr) (h : fn i = .error e) (ht : isTransientErr e = true) :
    withRetryAux fn (r + 1) d i =
      ((withRetryAux fn r (d * 2) (i + 1)).1,
        d :: (withRetryAux fn r (d * 2) (i + 1)).2) := by
  rw [withRetryAux.eq_def, h]
  simp [ht]

theorem withRetryAux_err_stuck {α : Type} (fn : Nat → Except JsErr α) (r d i : Nat)
    (e : JsErr) (h : fn i = .error e) (ht : isTransientErr e = false) :
    withRetryAux fn r d i = (.error e, []) := by
  cases r with
  | zero => exact withRetryAux_err_zero fn d i e h
  | succ n =>
    rw [withRetryAux.eq_def, h]
    simp [ht]

/-! ## Data model (types.ts, part_005 constants) -/

inductive ValidationStatus where
  | pending
  | valid
  | invalid
  deriving DecidableEq, Repr

inductive LogKind where
  | info
  | success
  | warning
  | error
  deriving DecidableEq, Repr

structure SeoData where
  keywords : List String
  selectedTitle : String
  deriving DecidableEq, Repr

/-- Runtime script content: hook, body and cta may be undefined because the
orchestrator stores the parsed agent output fields as-is. -/
structure ScriptContent where
  hook : Option String
  body : Option String
  cta : Option String
  sceneBreakdown : List String
  deriving DecidableEq, Repr

structure VisualPlan where
  imagePrompts : List String
  videoPrompts : List String
  deriving DecidableEq, Repr

structure MarketingData where
  targetUrl : String
  offerType : String
  validationStatus : ValidationStatus
  logicReport : Option String
  deriving DecidableEq, Repr

structure Blueprint where
  projectId : String
  videoNumber : Nat
  videoType : String
  seoData : SeoData
  scriptContent : ScriptContent
  visualPlan : VisualPlan
  marketingData : MarketingData
  deriving DecidableEq, Repr

/-- INITIAL_BLUEPRINT from part_005 (the lastUpdated timestamp is outside
the model). -/
def INITIAL_BLUEPRINT : Blueprint :=
  { projectId := "Launch_Video_Pending"
    videoNumber := 1
    videoType := "Introductory"
    seoData := { keywords := [], selectedTitle := "Pending Research..." }
    scriptContent := { hook := some "", body := some "", cta := some "", sceneBreakdown := [] }
    visualPlan := { imagePrompts := [], videoPrompts := [] }
    marketingData := { targetUrl := "", offerType := "", validationStatus := .pending, logicReport := none } }

/-! ## Parsed agent outputs. Fields that the callers guard with the
JavaScript OR operator are optional, since JSON.parse may omit them. -/

structure ResearchOut where
  keywords : Option (List String)
  selectedTitle : Option String
  deriving DecidableEq, Repr

structure ScriptOut where
  hook : Option String
  body : Option String
  cta : Option String
  sceneBreakdown : Option (List String)
  deriving DecidableEq, Repr

structure VisualOut where
  imagePrompts : Option (List String)
  videoPrompts : Option (List String)
  deriving DecidableEq, Repr

structure MarketingOut where
  targetUrl : Option String
  offerType : Option String
  deriving DecidableEq, Repr

structure LogicOut where
  isValid : Bool
  report : String
  deriving DecidableEq, Repr

structure StratOut where
  topics : Option (List (Nat × String))
  deriving DecidableEq, Repr

/-! ## Agent response processing (geminiService.ts)

Each agent is embedded as its response-handling body: the external model
call is an oracle supplying an optional response text, and JSON.parse is an
oracle mapping the processed text to a parsed value or a parse error. -/

/-- JavaScript falsy test on an optional string: undefined or empty. -/
def jsFalsyStr (o : Option String) : Bool :=
  match o with
  | none => true
  | some s => s == ""

/-- Researcher body, geminiService.ts lines 83 to 90: extract, parse, and on
parse failure return the fixed fallback object instead of throwing. -/
def runResearchAgentBody (parse0 : String → Except String ResearchOut)
    (t : Option String) : ResearchOut :=
  match parse0 (cleanJson (orEmptyObj t)) with
  | .ok d => d
  | .error _ => { keywords := some [], selectedTitle := some "Research Failed - Retry" }

/-- Director back-fill, geminiService.ts lines 137 to 138: falsy body and
cta are replaced by fixed placeholders; hook is left untouched. -/
def backfillScript (d : ScriptOut) : ScriptOut :=
  { d with
    body := if jsFalsyStr d.body then some "Script body generation failed. Please retry." else d.body
    cta := if jsFalsyStr d.cta then some "Call to action generation failed." else d.cta }

/-- Director body, geminiService.ts lines 134 to 140: parse directly (the
call uses a structured response schema), back-fill, propagate parse errors. -/
def runScriptAgentBody (parse0 : String → Except String ScriptOut)
    (t : Option String) : Except String ScriptOut :=
  (parse0 (orEmptyObj t)).map backfillScript

/-- Visual designer body, geminiService.ts line 188: parse directly,
propagate parse errors. -/
def runVisualAgentBody (parse0 : String → Except String VisualOut)
    (t : Option String) : Except String VisualOut :=
  parse0 (orEmptyObj t)

/-- Marketer body, geminiService.ts line 218: parse directly, propagate
parse errors. -/
def runMarketingAgentBody (parse0 : String → Except String MarketingOut)
    (t : Option String) : Except String MarketingOut :=
  parse0 (orEmptyObj t)

/-- Logic validator body, geminiService.ts line 249: parse directly,
propagate parse errors. -/
def runLogicAgentBody (parse0 : String → Except String LogicOut)
    (t : Option String) : Except String LogicOut :=
  parse0 (orEmptyObj t)

/-- Strategist body, geminiService.ts lines 290 to 291: extract with
cleanJson, parse, return the topics field or an empty map; parse errors
propagate. -/
def runStrategyAgentBody (parse0 : String → Except String StratOut)
    (t : Option String) : Except String (List (Nat × String)) :=
  (parse0 (cleanJson (orEmptyObj t))).map (fun d => d.topics.getD [])

/-- Slot range requested by the Strategist prompt, geminiService.ts lines
260 to 279: start = last + 1 through end = last + 5. -/
def strategistRequestedKeys (last : Nat) : List Nat :=
  [last + 1, last + 2, last + 3, last + 4, last + 5]

/-! ## Topic ledger (part_000: videoTypes state, handleAddCustomTopic,
generateNextPhase) -/

/-- Slot numbers of a ledger, in entry order. -/
def ledgerKeys (l : List (Nat × String)) : List Nat :=
  l.map Prod.fst

/-- JavaScript object key assignment: overwrite an existing key in place,
otherwise append the new key. -/
def setKey (l : List (Nat × String)) (k : Nat) (v : String) : List (Nat × String) :=
  if l.any (fun p => p.1 == k) then
    l.map (fun p => if p.1 == k then (k, v) else p)
  else l ++ [(k, v)]

/-- JavaScript object spread of newTopics over prev, as in the
generateNextPhase state update. -/
def mergeTopics (l ts : List (Nat × String)) : List (Nat × String) :=
  ts.foldl (fun acc p => setKey acc p.1 p.2) l

/-- Ledger lookup by slot number. -/
def lookupSlot (l : List (Nat × String)) (n : Nat) : Option String :=
  (l.find? (fun p => p.1 == n)).map Prod.snd

/-- Embedding of handleAddCustomTopic, part_000 lines 191 to 201: append at
key length + 1 with the label type slash title. -/
def handleAddCustomTopic (videoTypes : List (Nat × String))
    (title typ : String) : List (Nat × String) :=
  setKey videoTypes (videoTypes.length + 1) (typ ++ " / " ++ title)

/-- Embedding of the generateNextPhase ledger update, part_000 lines 311 to
314: spread the strategist topics over the existing ledger. -/
def generateNextPhaseLedger (videoTypes newTopics : List (Nat × String)) :
    List (Nat × String) :=
  mergeTopics videoTypes newTopics

/-! ## Phase logic (part_000 lines 80 to 85) -/

/-- Embedding of isCurrentPhaseComplete: nonempty ledger and every slot
number from 1 to the entry count is in the completion set. -/
def isCurrentPhaseComplete (videoTypes : List (Nat × String))
    (completed : Finset Nat) : Bool :=
  decide (0 < videoTypes.length) &&
    ((List.range videoTypes.length).map (· + 1)).all (fun n => decide (n ∈ completed))

/-- currentPhase from part_000 line 85: ceiling of the entry count over 5. -/
def currentPhase (videoTypes : List (Nat × String)) : Nat :=
  (videoTypes.length + 4) / 5

/-- The unlock-next-phase button in part_000 line 456 renders exactly when
isCurrentPhaseComplete holds. -/
def phaseUnlockExposed (videoTypes : List (Nat × String))
    (completed : Finset Nat) : Bool :=
  isCurrentPhaseComplete videoTypes completed

/-- Second definition following the words of the spec, for comparison with
the code: a phase is complete when every slot number in the current phase
block from 5k - 4 to 5k that exists in the Ledger is in the Completion Set. -/
def specPhaseComplete (videoTypes : List (Nat × String))
    (completed : Finset Nat) : Bool :=
  decide (0 < videoTypes.length) &&
    ((List.range 5).map (fun i => 5 * currentPhase videoTypes - 4 + i)).all
      (fun n => !(decide (n ∈ ledgerKeys videoTypes)) || decide (n ∈ completed))

/-! ## Orchestrator (part_000, startProtocol lines 204 to 299)

The five stage results are oracles. React state reads inside the run see
the pre-run blueprint closure, so videoNumber and videoType come from the
initial blueprint throughout. The trace records the argument passed to each
agent call; the visual argument is a sum because the call site passes the
script body string where the agent declares a list of scene strings. -/

structure LogEntry where
  agentName : String
  message : String
  kind : LogKind
  deriving DecidableEq, Repr

structure Oracles where
  research : Except String ResearchOut
  script : Except String ScriptOut
  visual : Except String VisualOut
  marketing : Except String MarketingOut
  logic : Except String LogicOut

structure StageTrace where
  researchArg : Option (Option String)
  scriptArg : Option (Option String × String × Option (List String))
  visualArg : Option (Sum String (List String))
  marketingArg : Option Nat
  logicArg : Option (String × Nat)
  deriving DecidableEq, Repr

structure RunResult where
  blueprint : Blueprint
  logs : List LogEntry
  completed : Finset Nat
  trace : StageTrace

/-- Shared failure exit of startProtocol: the catch block appends one
generic error log and leaves blueprint and completion set as they are. -/
def orchFail (bp : Blueprint) (logs : List LogEntry) (completed : Finset Nat)
    (t : StageTrace) : RunResult :=
  { blueprint := bp
    logs := logs ++ [⟨"System", "Orchestration failed. Check console for details.", .error⟩]
    completed := completed
    trace := t }

/-- Render of an optional string inside a template literal: undefined
prints as the word undefined. -/
def showOpt (o : Option String) : String :=
  match o with
  | none => "undefined"
  | some s => s

/-- Embedding of startProtocol. -/
def startProtocol (videoTypes : List (Nat × String)) (completed0 : Finset Nat)
    (bp0 : Blueprint) (o : Oracles) : RunResult :=
  let t0 : StageTrace := ⟨none, none, none, none, none⟩
  let logs1 : List LogEntry :=
    [⟨"HazeOrchestrator", "Initializing Protocol V3 for Video #" ++ toString bp0.videoNumber ++ "...", .info⟩,
     ⟨"Palzani-16 (Researcher)", "Scanning for high-volume keywords...", .info⟩]
  let t1 := { t0 with researchArg := some (lookupSlot videoTypes bp0.videoNumber) }
  match o.research with
  | .error _ => orchFail bp0 logs1 completed0 t1
  | .ok rd =>
    let bp1 := { bp0 with
      seoData := { keywords := rd.keywords.getD [], selectedTitle := jsOrStr rd.selectedTitle "Untitled" } }
    let logs2 := logs1 ++
      [⟨"Palzani-16 (Researcher)", "Title locked: " ++ showOpt rd.selectedTitle, .success⟩,
       ⟨"Palzani-26 (Director)", "Drafting narrative arc (Hook -> Solution -> Blueprint)...", .info⟩]
    let t2 := { t1 with scriptArg := some (rd.selectedTitle, bp0.videoType, rd.keywords) }
    match o.script with
    | .error _ => orchFail bp1 logs2 completed0 t2
    | .ok sd =>
      let bp2 := { bp1 with
        scriptContent := { hook := sd.hook, body := sd.body, cta := sd.cta,
                           sceneBreakdown := sd.sceneBreakdown.getD [] } }
      let logs3 := logs2 ++
        [⟨"Palzani-26 (Director)", "Script generated and validated.", .success⟩,
         ⟨"Palzani-23 (Design)", "Generating kinetic imagery prompts...", .info⟩]
      let t3 := { t2 with visualArg := some (Sum.inl (jsOrStr sd.body "")) }
      match o.visual with
      | .error _ => orchFail bp2 logs3 completed0 t3
      | .ok vd =>
        let bp3 := { bp2 with
          visualPlan := { imagePrompts := vd.imagePrompts.getD [], videoPrompts := vd.videoPrompts.getD [] } }
        let logs4 := logs3 ++
          [⟨"Palzani-23 (Design)", "Created " ++ toString (vd.imagePrompts.getD []).length ++ " image prompts.", .success⟩,
           ⟨"Palzani-5 (Growth)", "Calculating optimal funnel strategy...", .info⟩]
        let t4 := { t3 with marketingArg := some bp0.videoNumber }
        match o.marketing with
        | .error _ => orchFail bp3 logs4 completed0 t4
        | .ok md =>
          let bp4 := { bp3 with
            marketingData := { targetUrl := jsOrStr md.targetUrl "https://haze.ai/offer",
                               offerType := jsOrStr md.offerType "Lead Magnet",
                               validationStatus := .pending, logicReport := none } }
          let logs5 := logs4 ++
            [⟨"Palzani-5 (Growth)", "Funnel logic calculated.", .success⟩,
             ⟨"Palzani-O (Logic)", "Validating router logic and URL destination...", .info⟩]
          let t5 := { t4 with logicArg := some (jsOrStr md.targetUrl "https://haze.ai", bp0.videoNumber) }
          match o.logic with
          | .error _ => orchFail bp4 logs5 completed0 t5
          | .ok ld =>
            let bp5 := { bp4 with
              marketingData := { bp4.marketingData with
                validationStatus := if ld.isValid then .valid else .invalid,
                logicReport := some ld.report } }
            let logicLog : LogEntry :=
              if ld.isValid then ⟨"Palzani-O (Logic)", "Logic Verified: " ++ ld.report, .success⟩
              else ⟨"Palzani-O (Logic)", "Logic Error: " ++ ld.report, .error⟩
            let logs6 := logs5 ++
              [logicLog, ⟨"HazeOrchestrator", "Protocol V3 Complete. Blueprint ready.", .success⟩]
            { blueprint := bp5, logs := logs6,
              completed := insert bp0.videoNumber completed0, trace := t5 }

/-! ## Ledger lemmas -/

theorem notMem_any_eq_false (l : List (Nat × String)) (k : Nat)
    (h : k ∉ ledgerKeys l) : (l.any fun p => p.1 == k) = false := by
  rw [List.any_eq_false]
  intro p hp hpk
  exact h (List.mem_map.mpr ⟨p, hp, by simpa using hpk⟩)

theorem setKey_of_notMem (l : List (Nat × String)) (k : Nat) (v : String)
    (h : k ∉ ledgerKeys l) : setKey l k v = l ++ [(k, v)] := by
  simp [setKey, notMem_any_eq_false l k h]

theorem ledgerKeys_append (l₁ l₂ : List (Nat × String)) :
    ledgerKeys (l₁ ++ l₂) = ledgerKeys l₁ ++ ledgerKeys l₂ := by
  simp [ledgerKeys]

theorem mergeTopics_disjoint (ts l : List (Nat × String))
    (hd : ∀ a ∈ ledgerKeys ts, a ∉ ledgerKeys l)
    (hn : (ledgerKeys ts).Nodup) :
    mergeTopics l ts = l ++ ts := by
  induction ts generalizing l with
  | nil => simp [mergeTopics]
  | cons p rest ih =>
    obtain ⟨k, v⟩ := p
    have hkeys : ledgerKeys ((k, v) :: rest) = k :: ledgerKeys rest := rfl
    have hk : k ∉ ledgerKeys l := hd k (by rw [hkeys]; exact List.mem_cons_self k _)
    have hkr : k ∉ ledgerKeys rest := by
      have := hn
      rw [hkeys] at this
      exact (List.nodup_cons.mp this).1
    have step : mergeTopics l ((k, v) :: rest) = mergeTopics (l ++ [(k, v)]) rest := by
      show rest.foldl (fun acc p => setKey acc p.1 p.2) (setKey l k v) = _
      rw [setKey_of_notMem l k v hk]
      rfl
    rw [step]
    have hd' : ∀ a ∈ ledgerKeys rest, a ∉ ledgerKeys (l ++ [(k, v)]) := by
      intro a ha hmem
      rw [ledgerKeys_append] at hmem
      rcases List.mem_append.mp hmem with h1 | h1
      · exact hd a (by rw [hkeys]; exact List.mem_cons_of_mem k ha) h1
      · have : a = k := by simpa [ledgerKeys] using h1
        exact hkr (this ▸ ha)
    have hn' : (ledgerKeys rest).Nodup := by
      have := hn
      rw [hkeys] at this
      exact (List.nodup_cons.mp this).2
    rw [ih (l ++ [(k, v)]) hd' hn']
    simp

theorem lookupSlot_append_new (l : List (Nat × String)) (k : Nat) (v : String)
    (h : k ∉ ledgerKeys l) : lookupSlot (l ++ [(k, v)]) k = some v := by
  induction l with
  | nil => simp [lookupSlot]
  | cons p rest ih =>
    have hp : (p.1 == k) = false := by
      have : p.1 ≠ k := by
        intro hpk
        exact h (by simp [ledgerKeys, hpk])
      simpa using this
    have ht : k ∉ ledgerKeys rest := by
      intro hm
      exact h (by simp [ledgerKeys] at hm ⊢; exact Or.inr hm)
    have := ih ht
    simpa [lookupSlot, List.find?, hp] using this

/-! ## Concrete inputs for witnesses and counterexamples -/

/-- VIDEO_TYPES from part_005: the initial 5-entry ledger. -/
def VIDEO_TYPES : List (Nat × String) :=
  [(1, "Introductory / The Struggle"),
   (2, "Explainer 1 / The Mechanism"),
   (3, "Explainer 2 / The Application"),
   (4, "Tutorial 1 / The Deep Dive"),
   (5, "Tutorial 2 / The Masterclass")]

/-- A conforming strategist extension batch for slots 6 through 10. -/
def topicsDemo : List (Nat × String) :=
  [(6, "Explainer / Agents"), (7, "Tutorial / Prompts"), (8, "Explainer / Tools"),
   (9, "Tutorial / Workflows"), (10, "Recap / Phase Two")]

/-- A 10-entry ledger with contiguous keys 1 through 10. -/
def ledgerTen : List (Nat × String) :=
  VIDEO_TYPES ++ topicsDemo

/-! ## Claims about the ledger and phase logic -/

/-- C7: The Topic Ledger keys stay contiguous starting at 1 under both
extension paths: from a ledger with keys 1..5, the Strategist path with
lastVideoNumber 5 requests and, for a conforming response, adds exactly
keys 6..10; the manual-add path on a 5-entry ledger adds exactly key 6 with
label type slash title. -/
theorem claim7_ledger_contiguity (ledger topics : List (Nat × String)) (title typ : String)
    (hL : ledgerKeys ledger = [1, 2, 3, 4, 5])
    (hT : ledgerKeys topics = [6, 7, 8, 9, 10]) :
    strategistRequestedKeys 5 = [6, 7, 8, 9, 10] ∧
    ledgerKeys (generateNextPhaseLedger ledger topics) = [1, 2, 3, 4, 5, 6, 7, 8, 9, 10] ∧
    ledgerKeys (handleAddCustomTopic ledger title typ) = [1, 2, 3, 4, 5, 6] ∧
    lookupSlot (handleAddCustomTopic ledger title typ) 6 = some (typ ++ " / " ++ title) := by
  have hlen : ledger.length = 5 := by
    have := congrArg List.length hL
    simpa [ledgerKeys] using this
  have hdisj : ∀ a ∈ ledgerKeys topics, a ∉ ledgerKeys ledger := by
    rw [hL, hT]; decide
  have hnd : (ledgerKeys topics).Nodup := by rw [hT]; decide
  have hmerge : generateNextPhaseLedger ledger topics = ledger ++ topics :=
    mergeTopics_disjoint topics ledger hdisj hnd
  have h6 : (6 : Nat) ∉ ledgerKeys ledger := by rw [hL]; decide
  have hadd : handleAddCustomTopic ledger title typ = ledger ++ [(6, typ ++ " / " ++ title)] := by
    show setKey ledger (ledger.length + 1) _ = _
    rw [hlen]
    exact setKey_of_notMem ledger 6 _ h6
  refine ⟨rfl, ?_, ?_, ?_⟩
  · rw [hmerge, ledgerKeys_append, hL, hT]
    rfl
  · rw [hadd, ledgerKeys_append, hL]
    rfl
  · rw [hadd]
    exact lookupSlot_append_new ledger 6 _ h6

/-- C7 witness: the two extension paths evaluated on the concrete initial
ledger and a conforming topic batch. -/
theorem claim7_witness :
    ledgerKeys (generateNextPhaseLedger VIDEO_TYPES topicsDemo) = [1, 2, 3, 4, 5, 6, 7, 8, 9, 10] ∧
    ledgerKeys (handleAddCustomTopic VIDEO_TYPES "My Topic" "Custom Strategy") = [1, 2, 3, 4, 5, 6] ∧
    lookupSlot (handleAddCustomTopic VIDEO_TYPES "My Topic" "Custom Strategy") 6 =
      some "Custom Strategy / My Topic" := by
  have h := claim7_ledger_contiguity VIDEO_TYPES topicsDemo "My Topic" "Custom Strategy"
    (by decide) (by decide)
  exact ⟨h.2.1, h.2.2.1, h.2.2.2⟩

/-- C8 counterexample: on a 10-entry ledger with only the second phase
block 6..10 completed, the spec-worded phase predicate holds but the code
returns false and does not expose the unlock capability, refuting the
claimed equivalence. -/
theorem claim8_phase_block_cex :
    specPhaseComplete ledgerTen ({6, 7, 8, 9, 10} : Finset Nat) = true ∧
    isCurrentPhaseComplete ledgerTen ({6, 7, 8, 9, 10} : Finset Nat) = false ∧
    phaseUnlockExposed ledgerTen ({6, 7, 8, 9, 10} : Finset Nat) = false := by
  refine ⟨by decide, by decide, by decide⟩

/-- C8 amended: the completion predicate holds exactly when the ledger is
nonempty and every slot number from 1 up to the ledger entry count is in
the completion set, and the unlock-next-phase capability is exposed exactly
then; with a 5-entry ledger, completion set 1..4 is incomplete and adding 5
makes it complete. -/
theorem claim8_phase_complete_amended :
    (∀ (vt : List (Nat × String)) (c : Finset Nat),
      isCurrentPhaseComplete vt c = true ↔
        (0 < vt.length ∧ ∀ n, 1 ≤ n → n ≤ vt.length → n ∈ c)) ∧
    (∀ (vt : List (Nat × String)) (c : Finset Nat),
      phaseUnlockExposed vt c = isCurrentPhaseComplete vt c) ∧
    isCurrentPhaseComplete VIDEO_TYPES ({1, 2, 3, 4} : Finset Nat) = false ∧
    isCurrentPhaseComplete VIDEO_TYPES ({1, 2, 3, 4, 5} : Finset Nat) = true ∧
    phaseUnlockExposed VIDEO_TYPES ({1, 2, 3, 4, 5} : Finset Nat) = true := by
  refine ⟨?_, fun _ _ => rfl, by decide, by decide, by decide⟩
  intro vt c
  simp only [isCurrentPhaseComplete, Bool.and_eq_true, decide_eq_true_eq,
    List.all_eq_true, List.mem_map, List.mem_range]
  constructor
  · rintro ⟨hN, hall⟩
    refine ⟨hN, fun n h1 h2 => ?_⟩
    exact hall n ⟨n - 1, by omega, by omega⟩
  · rintro ⟨hN, hall⟩
    refine ⟨hN, ?_⟩
    rintro x ⟨a, ha, rfl⟩
    exact hall (a + 1) (by omega) (by omega)

/-- C8 witness: the equivalence applied to the concrete 5-entry ledger with
all five slots completed. -/
theorem claim8_phase_witness :
    isCurrentPhaseComplete VIDEO_TYPES ({1, 2, 3, 4, 5} : Finset Nat) = true :=
  (claim8_phase_complete_amended.1 VIDEO_TYPES {1, 2, 3, 4, 5}).mpr
    ⟨by decide, fun n h1 h2 => by
      have h5 : n ≤ 5 := by simpa [VIDEO_TYPES] using h2
      interval_cases n <;> decide⟩

/-! ## Claim about the retry wrapper -/

/-- C2: The retry wrapper returns an unchanged success after waits 5000
then 10000 ms when the first two calls fail transiently and the third
succeeds; the wait doubles on each retry starting at 5000 ms with a budget
of 3 retries; a non-transient first failure is rethrown unchanged with zero
waits; an exhausted budget propagates the last error unchanged. -/
theorem claim2_withRetry_spec {α : Type} :
    (∀ (fn : Nat → Except JsErr α) (e0 e1 : JsErr) (v : α),
      fn 0 = .error e0 → isTransientErr e0 = true →
      fn 1 = .error e1 → isTransientErr e1 = true →
      fn 2 = .ok v →
      withRetry fn = (.ok v, [5000, 10000])) ∧
    (∀ (fn : Nat → Except JsErr α), withRetry fn = withRetryAux fn 3 5000 0) ∧
    (∀ (fn : Nat → Except JsErr α) (r d i : Nat) (e : JsErr),
      fn i = .error e → isTransientErr e = true →
      withRetryAux fn (r + 1) d i =
        ((withRetryAux fn r (d * 2) (i + 1)).1,
          d :: (withRetryAux fn r (d * 2) (i + 1)).2)) ∧
    (∀ (fn : Nat → Except JsErr α) (e : JsErr),
      fn 0 = .error e → isTransientErr e = false →
      withRetry fn = (.error e, [])) ∧
    (∀ (fn : Nat → Except JsErr α) (e0 e1 e2 e3 : JsErr),
      fn 0 = .error e0 → isTransientErr e0 = true →
      fn 1 = .error e1 → isTransientErr e1 = true →
      fn 2 = .error e2 → isTransientErr e2 = true →
      fn 3 = .error e3 →
      withRetry fn = (.error e3, [5000, 10000, 20000])) := by
  refine ⟨?_, fun _ => rfl, ?_, ?_, ?_⟩
  · intro fn e0 e1 v h0 t0 h1 t1 h2
    have s0 : withRetryAux fn 3 5000 0 =
        ((withRetryAux fn 2 (5000 * 2) 1).1, 5000 :: (withRetryAux fn 2 (5000 * 2) 1).2) :=
      withRetryAux_err_step fn 2 5000 0 e0 h0 t0
    have s1 : withRetryAux fn 2 (5000 * 2) 1 =
        ((withRetryAux fn 1 (5000 * 2 * 2) 2).1, 5000 * 2 :: (withRetryAux fn 1 (5000 * 2 * 2) 2).2) :=
      withRetryAux_err_step fn 1 (5000 * 2) 1 e1 h1 t1
    have s2 : withRetryAux fn 1 (5000 * 2 * 2) 2 = (.ok v, []) :=
      withRetryAux_ok fn 1 (5000 * 2 * 2) 2 v h2
    show withRetryAux fn 3 5000 0 = _
    rw [s0, s1, s2]
  · intro fn r d i e h ht
    exact withRetryAux_err_step fn r d i e h ht
  · intro fn e h0 ht
    show withRetryAux fn 3 5000 0 = _
    exact withRetryAux_err_stuck fn 3 5000 0 e h0 ht
  · intro fn e0 e1 e2 e3 h0 t0 h1 t1 h2 t2 h3
    have s0 : withRetryAux fn 3 5000 0 =
        ((withRetryAux fn 2 (5000 * 2) 1).1, 5000 :: (withRetryAux fn 2 (5000 * 2) 1).2) :=
      withRetryAux_err_step fn 2 5000 0 e0 h0 t0
    have s1 : withRetryAux fn 2 (5000 * 2) 1 =
        ((withRetryAux fn 1 (5000 * 2 * 2) 2).1, 5000 * 2 :: (withRetryAux fn 1 (5000 * 2 * 2) 2).2) :=
      withRetryAux_err_step fn 1 (5000 * 2) 1 e1 h1 t1
    have s2 : withRetryAux fn 1 (5000 * 2 * 2) 2 =
        ((withRetryAux fn 0 (5000 * 2 * 2 * 2) 3).1,
          5000 * 2 * 2 :: (withRetryAux fn 0 (5000 * 2 * 2 * 2) 3).2) :=
      withRetryAux_err_step fn 0 (5000 * 2 * 2) 2 e2 h2 t2
    have s3 : withRetryAux fn 0 (5000 * 2 * 2 * 2) 3 = (.error e3, []) :=
      withRetryAux_err_zero fn (5000 * 2 * 2 * 2) 3 e3 h3
    show withRetryAux fn 3 5000 0 = _
    rw [s0, s1, s2, s3]

/-- A transient rate-limit error and a non-transient parse error. -/
def err429 : JsErr := { status := some 429, code := none, message := none }

def errParse : JsErr := { status := none, code := none, message := some "Unexpected token u in JSON" }

/-- Operation failing transiently on its first two calls, then succeeding. -/
def fnFlaky : Nat → Except JsErr Nat := fun i => if i < 2 then .error err429 else .ok 7

/-- Operation failing non-transiently on every call. -/
def fnBroken : Nat → Except JsErr Nat := fun _ => .error errParse

/-- C2 witness: the wrapper evaluated on the two concrete operations. -/
theorem claim2_withRetry_witness :
    withRetry fnFlaky = (.ok 7, [5000, 10000]) ∧
    withRetry fnBroken = (.error errParse, []) :=
  ⟨claim2_withRetry_spec.1 fnFlaky err429 err429 7 rfl (by decide) rfl (by decide) rfl,
   claim2_withRetry_spec.2.2.2.1 fnBroken errParse rfl (by decide)⟩

/-! ## Claims about JSON extraction -/

/-- C3 counterexample: the claim quantifies over every input text, but for
the empty string (which has no braces, so the claimed result is the
stripped text, the empty string itself) cleanJson returns the literal
object text instead. -/
theorem claim3_cleanJson_empty_cex :
    cleanJson "" = "\x7b\x7d" ∧ cleanJsonFallback "" = "" ∧
    cleanJson "" ≠ cleanJsonFallback "" := by
  refine ⟨rfl, rfl, by decide⟩

/-- C3 amended: for every nonempty input text, if the text contains an
opening brace and a closing brace with the last closing brace strictly
after the first opening brace, cleanJson returns exactly that inclusive
substring; otherwise it returns the text with the code-fence markers
removed and surrounding whitespace trimmed. The empty string instead maps
to the literal object text. -/
theorem claim3_cleanJson_amended (text : String) (h : text ≠ "") :
    (∀ i j, IsFirstOccur '\x7b' text.toList i → IsLastOccur '\x7d' text.toList j →
      i < j → cleanJson text = String.mk ((text.toList.drop i).take (j + 1 - i))) ∧
    ((¬ ∃ i j, IsFirstOccur '\x7b' text.toList i ∧ IsLastOccur '\x7d' text.toList j ∧ i < j) →
      cleanJson text = cleanJsonFallback text) := by
  constructor
  · intro i j hi hj hij
    unfold cleanJson
    rw [if_neg h]
    simp only [(firstIdx_iff _ _ _).mpr hi, (lastIdx_iff _ _ _).mpr hj]
    rw [if_pos hij]
  · intro hno
    unfold cleanJson
    rw [if_neg h]
    cases hf : firstIdx '\x7b' text.toList with
    | none => rfl
    | some i =>
      cases hl : lastIdx '\x7d' text.toList with
      | none => rfl
      | some j =>
        have hij : ¬ i < j := fun hij =>
          hno ⟨i, j, (firstIdx_iff _ _ _).mp hf, (lastIdx_iff _ _ _).mp hl, hij⟩
        simp only []
        rw [if_neg hij]

/-- C3 witness: a nonempty text with braces and a nonempty brace-free text,
evaluated concretely. -/
theorem claim3_cleanJson_witness :
    cleanJson "a\x7bb\x7dc" = "\x7bb\x7d" ∧
    cleanJson "garbage" = "garbage" := by
  constructor
  · have h := (claim3_cleanJson_amended "a\x7bb\x7dc" (by decide)).1 1 3
      (by decide) (by decide) (by decide)
    simpa using h
  · have hno : ¬ ∃ i j, IsFirstOccur '\x7b' "garbage".toList i ∧
        IsLastOccur '\x7d' "garbage".toList j ∧ i < j := by
      rintro ⟨i, j, hi, hj, hij⟩
      have hfi : firstIdx '\x7b' "garbage".toList = some i := (firstIdx_iff _ _ _).mpr hi
      exact Option.noConfusion (show (none : Option Nat) = some i from hfi)
    have h := (claim3_cleanJson_amended "garbage" (by decide)).2 hno
    simpa using h

/-! ## Claims about the agent response handling -/

/-- C4: On a parse failure of the extracted text, the Researcher returns
the fixed fallback object without an error, while every other agent
(Director, Visual Designer, Marketer, Logic Validator, Strategist)
propagates the parse error unchanged to its caller. -/
theorem claim4_parse_error_asymmetry :
    (∀ (p : String → Except String ResearchOut) (t : Option String) (e : String),
      p (cleanJson (orEmptyObj t)) = .error e →
      runResearchAgentBody p t =
        { keywords := some [], selectedTitle := some "Research Failed - Retry" }) ∧
    (∀ (p : String → Except String ScriptOut) (t : Option String) (e : String),
      p (orEmptyObj t) = .error e → runScriptAgentBody p t = .error e) ∧
    (∀ (p : String → Except String VisualOut) (t : Option String) (e : String),
      p (orEmptyObj t) = .error e → runVisualAgentBody p t = .error e) ∧
    (∀ (p : String → Except String MarketingOut) (t : Option String) (e : String),
      p (orEmptyObj t) = .error e → runMarketingAgentBody p t = .error e) ∧
    (∀ (p : String → Except String LogicOut) (t : Option String) (e : String),
      p (orEmptyObj t) = .error e → runLogicAgentBody p t = .error e) ∧
    (∀ (p : String → Except String StratOut) (t : Option String) (e : String),
      p (cleanJson (orEmptyObj t)) = .error e → runStrategyAgentBody p t = .error e) := by
  refine ⟨?_, ?_, ?_, ?_, ?_, ?_⟩
  · intro p t e h
    unfold runResearchAgentBody
    rw [h]
  · intro p t e h
    unfold runScriptAgentBody
    rw [h]
    rfl
  · intro p t e h
    unfold runVisualAgentBody
    rw [h]
  · intro p t e h
    unfold runMarketingAgentBody
    rw [h]
  · intro p t e h
    unfold runLogicAgentBody
    rw [h]
  · intro p t e h
    unfold runStrategyAgentBody
    rw [h]
    rfl

/-- A parse oracle that always fails, one per agent output type. -/
def parseFailResearch : String → Except String ResearchOut := fun _ => .error "SyntaxError"

def parseFailScript : String → Except String ScriptOut := fun _ => .error "SyntaxError"

def parseFailStrat : String → Except String StratOut := fun _ => .error "SyntaxError"

/-- C4 witness: the Researcher swallows the failure, the Director
propagates it, on a concrete unparseable response. -/
theorem claim4_witness :
    runResearchAgentBody parseFailResearch (some "garbage") =
      { keywords := some [], selectedTitle := some "Research Failed - Retry" } ∧
    runScriptAgentBody parseFailScript (some "garbage") = .error "SyntaxError" ∧
    runStrategyAgentBody parseFailStrat (some "garbage") = .error "SyntaxError" :=
  ⟨claim4_parse_error_asymmetry.1 parseFailResearch (some "garbage") "SyntaxError" rfl,
   claim4_parse_error_asymmetry.2.1 parseFailScript (some "garbage") "SyntaxError" rfl,
   claim4_parse_error_asymmetry.2.2.2.2.2 parseFailStrat (some "garbage") "SyntaxError" rfl⟩

/-- C9: For the empty string input cleanJson returns the literal object
text, the or-default substitutes the literal object text for an absent or
empty response text, and the Researcher and Strategist bodies behave on an
absent or empty response exactly as on the literal object text. -/
theorem claim9_empty_text_default :
    cleanJson "" = "\x7b\x7d" ∧
    orEmptyObj none = "\x7b\x7d" ∧
    orEmptyObj (some "") = "\x7b\x7d" ∧
    (∀ (p : String → Except String ResearchOut) (t : Option String),
      t = none ∨ t = some "" →
      runResearchAgentBody p t = runResearchAgentBody p (some "\x7b\x7d")) ∧
    (∀ (p : String → Except String StratOut) (t : Option String),
      t = none ∨ t = some "" →
      runStrategyAgentBody p t = runStrategyAgentBody p (some "\x7b\x7d")) := by
  refine ⟨rfl, rfl, rfl, ?_, ?_⟩
  · rintro p t (rfl | rfl) <;> rfl
  · rintro p t (rfl | rfl) <;> rfl

/-- A parse oracle returning a fixed parsed object for any text. -/
def parseEmptyResearch : String → Except String ResearchOut :=
  fun _ => .ok { keywords := none, selectedTitle := none }

/-- C9 witness: the Researcher body on an absent response equals the body
on the literal object text. -/
theorem claim9_witness :
    runResearchAgentBody parseEmptyResearch none =
      runResearchAgentBody parseEmptyResearch (some "\x7b\x7d") :=
  claim9_empty_text_default.2.2.2.1 parseEmptyResearch none (Or.inl rfl)

/-- C10: The Director back-fills only body and cta: for every successfully
parsed response the returned body and cta are nonempty strings, with the
fixed placeholders substituted exactly when the parsed field was absent or
empty, while hook and sceneBreakdown are returned exactly as parsed. -/
theorem backfill_body_falsy (d : ScriptOut) (hb : jsFalsyStr d.body = true) :
    (backfillScript d).body = some "Script body generation failed. Please retry." := by
  simp [backfillScript, hb]

theorem backfill_body_kept (d : ScriptOut) (hb : jsFalsyStr d.body = false) :
    (backfillScript d).body = d.body := by
  simp [backfillScript, hb]

theorem backfill_cta_falsy (d : ScriptOut) (hb : jsFalsyStr d.cta = true) :
    (backfillScript d).cta = some "Call to action generation failed." := by
  simp [backfillScript, hb]

theorem backfill_cta_kept (d : ScriptOut) (hb : jsFalsyStr d.cta = false) :
    (backfillScript d).cta = d.cta := by
  simp [backfillScript, hb]

theorem notFalsy_some_ne (o : Option String) (hb : jsFalsyStr o = false) :
    ∃ s, o = some s ∧ s ≠ "" := by
  cases o with
  | none => simp [jsFalsyStr] at hb
  | some s =>
    refine ⟨s, rfl, fun hs => ?_⟩
    subst hs
    simp [jsFalsyStr] at hb

theorem claim10_director_backfill (p : String → Except String ScriptOut)
    (t : Option String) (d : ScriptOut) (h : p (orEmptyObj t) = .ok d) :
    runScriptAgentBody p t = .ok (backfillScript d) ∧
    (∃ s, (backfillScript d).body = some s ∧ s ≠ "") ∧
    (∃ s, (backfillScript d).cta = some s ∧ s ≠ "") ∧
    (backfillScript d).hook = d.hook ∧
    (backfillScript d).sceneBreakdown = d.sceneBreakdown ∧
    (jsFalsyStr d.body = true →
      (backfillScript d).body = some "Script body generation failed. Please retry.") ∧
    (jsFalsyStr d.body = false → (backfillScript d).body = d.body) ∧
    (jsFalsyStr d.cta = true →
      (backfillScript d).cta = some "Call to action generation failed.") ∧
    (jsFalsyStr d.cta = false → (backfillScript d).cta = d.cta) := by
  refine ⟨?_, ?_, ?_, rfl, rfl, backfill_body_falsy d, backfill_body_kept d,
    backfill_cta_falsy d, backfill_cta_kept d⟩
  · unfold runScriptAgentBody
    rw [h]
    rfl
  · cases hb : jsFalsyStr d.body with
    | true => exact ⟨"Script body generation failed. Please retry.", backfill_body_falsy d hb, by decide⟩
    | false =>
      rcases notFalsy_some_ne d.body hb with ⟨s, hs, hns⟩
      exact ⟨s, by rw [backfill_body_kept d hb, hs], hns⟩
  · cases hb : jsFalsyStr d.cta with
    | true => exact ⟨"Call to action generation failed.", backfill_cta_falsy d hb, by decide⟩
    | false =>
      rcases notFalsy_some_ne d.cta hb with ⟨s, hs, hns⟩
      exact ⟨s, by rw [backfill_cta_kept d hb, hs], hns⟩

/-- A parsed Director response missing hook and body, with an empty cta. -/
def scriptMissing : ScriptOut :=
  { hook := none, body := none, cta := some "", sceneBreakdown := some ["scene 1"] }

def parseOkScript : String → Except String ScriptOut := fun _ => .ok scriptMissing

/-- C10 witness: the back-fill on a concrete response with missing body,
empty cta and missing hook. -/
theorem claim10_witness :
    runScriptAgentBody parseOkScript none = .ok (backfillScript scriptMissing) ∧
    (backfillScript scriptMissing).body = some "Script body generation failed. Please retry." ∧
    (backfillScript scriptMissing).cta = some "Call to action generation failed." ∧
    (backfillScript scriptMissing).hook = none :=
  ⟨(claim10_director_backfill parseOkScript none scriptMissing rfl).1,
   (claim10_director_backfill parseOkScript none scriptMissing rfl).2.2.2.2.2.1 rfl,
   (claim10_director_backfill parseOkScript none scriptMissing rfl).2.2.2.2.2.2.2.1 rfl,
   (claim10_director_backfill parseOkScript none scriptMissing rfl).2.2.2.1⟩

/-! ## Claims about the orchestrator -/

theorem getLast?_append_pair (l : List LogEntry) (a b : LogEntry) :
    (l ++ [a, b]).getLast? = some b := by
  rw [show [a, b] = [a] ++ [b] from rfl, ← List.append_assoc, List.getLast?_concat]

/-- Oracle set for a fully successful run whose Director output has a
two-scene breakdown distinct from the script body. -/
def oraclesDemo : Oracles :=
  { research := .ok { keywords := some ["k1"], selectedTitle := some "Title A" }
    script := .ok { hook := some "the hook", body := some "the script body",
                    cta := some "the cta", sceneBreakdown := some ["scene one", "scene two"] }
    visual := .ok { imagePrompts := some ["p1", "p2"], videoPrompts := some ["v1", "v2", "v3"] }
    marketing := .ok { targetUrl := some "https://go.example/", offerType := some "Lead Magnet" }
    logic := .ok { isValid := true, report := "routing ok" } }

/-- C1: evaluated on a successful run, the orchestrator passes the Director
body string to the Visual Designer stage, not the ordered scene strings of
the sceneBreakdown array, although the blueprint records that breakdown.
This contradicts the threading claim and the declared list-of-scenes
parameter of the visual agent, so the call site is the slip. -/
theorem claim1_visual_receives_body_not_scenes :
    (startProtocol VIDEO_TYPES ∅ INITIAL_BLUEPRINT oraclesDemo).blueprint.scriptContent.sceneBreakdown =
      ["scene one", "scene two"] ∧
    (startProtocol VIDEO_TYPES ∅ INITIAL_BLUEPRINT oraclesDemo).trace.visualArg =
      some (Sum.inl "the script body") ∧
    (startProtocol VIDEO_TYPES ∅ INITIAL_BLUEPRINT oraclesDemo).trace.visualArg ≠
      some (Sum.inr ["scene one", "scene two"]) := by
  refine ⟨rfl, rfl, by decide⟩

/-- C5: Each stage merge touches only its own blueprint field, and a Visual
Designer failure halts the run keeping the Researcher and Director merges:
seoData and scriptContent hold the merged values, marketingData, visualPlan
and the identity fields stay at their pre-run values, the completion set is
unchanged, the marketing and logic stages are never invoked, and the run
ends with the single generic error log. -/
theorem claim5_partial_failure_frame (vt : List (Nat × String)) (completed0 : Finset Nat)
    (bp0 : Blueprint) (o : Oracles) (rd : ResearchOut) (sd : ScriptOut) (e : String)
    (hr : o.research = .ok rd) (hs : o.script = .ok sd) (hv : o.visual = .error e) :
    (startProtocol vt completed0 bp0 o).blueprint.seoData =
      { keywords := rd.keywords.getD [], selectedTitle := jsOrStr rd.selectedTitle "Untitled" } ∧
    (startProtocol vt completed0 bp0 o).blueprint.scriptContent =
      { hook := sd.hook, body := sd.body, cta := sd.cta,
        sceneBreakdown := sd.sceneBreakdown.getD [] } ∧
    (startProtocol vt completed0 bp0 o).blueprint.marketingData = bp0.marketingData ∧
    (startProtocol vt completed0 bp0 o).blueprint.visualPlan = bp0.visualPlan ∧
    (startProtocol vt completed0 bp0 o).blueprint.projectId = bp0.projectId ∧
    (startProtocol vt completed0 bp0 o).blueprint.videoNumber = bp0.videoNumber ∧
    (startProtocol vt completed0 bp0 o).blueprint.videoType = bp0.videoType ∧
    (startProtocol vt completed0 bp0 o).completed = completed0 ∧
    (startProtocol vt completed0 bp0 o).trace.marketingArg = none ∧
    (startProtocol vt completed0 bp0 o).trace.logicArg = none ∧
    (startProtocol vt completed0 bp0 o).logs.getLast? =
      some ⟨"System", "Orchestration failed. Check console for details.", .error⟩ := by
  simp only [startProtocol, hr, hs, hv, orchFail]
  simp [List.getLast?_concat]

/-- C6: With every stage succeeding and the Logic Validator reporting
isValid false, nothing is thrown: the run reaches the completion log, the
current slot is added to the completion set, validationStatus becomes
invalid with the report stored in logicReport, and an error-typed log entry
is emitted; with isValid true the entry is success-typed and the status
becomes valid. -/
theorem claim6_invalid_validation_completes (vt : List (Nat × String))
    (completed0 : Finset Nat) (bp0 : Blueprint) (o : Oracles)
    (rd : ResearchOut) (sd : ScriptOut) (vd : VisualOut) (md : MarketingOut) (ld : LogicOut)
    (hr : o.research = .ok rd) (hs : o.script = .ok sd) (hv : o.visual = .ok vd)
    (hm : o.marketing = .ok md) (hl : o.logic = .ok ld) :
    bp0.videoNumber ∈ (startProtocol vt completed0 bp0 o).completed ∧
    (startProtocol vt completed0 bp0 o).logs.getLast? =
      some ⟨"HazeOrchestrator", "Protocol V3 Complete. Blueprint ready.", .success⟩ ∧
    (startProtocol vt completed0 bp0 o).blueprint.marketingData.logicReport = some ld.report ∧
    (ld.isValid = false →
      (startProtocol vt completed0 bp0 o).blueprint.marketingData.validationStatus = .invalid ∧
      (⟨"Palzani-O (Logic)", "Logic Error: " ++ ld.report, .error⟩ : LogEntry) ∈
        (startProtocol vt completed0 bp0 o).logs) ∧
    (ld.isValid = true →
      (startProtocol vt completed0 bp0 o).blueprint.marketingData.validationStatus = .valid ∧
      (⟨"Palzani-O (Logic)", "Logic Verified: " ++ ld.report, .success⟩ : LogEntry) ∈
        (startProtocol vt completed0 bp0 o).logs) := by
  simp only [startProtocol, hr, hs, hv, hm, hl]
  refine ⟨Finset.mem_insert_self _ _, getLast?_append_pair _ _ _, ?_, ?_, ?_⟩
  · simp
  · intro hb
    simp [hb, List.mem_append]
  · intro hb
    simp [hb, List.mem_append]

/-- Oracle set identical to the successful run but with the Visual Designer
stage failing. -/
def oraclesVisualFail : Oracles :=
  { research := .ok { keywords := some ["k1"], selectedTitle := some "Title A" }
    script := .ok { hook := some "the hook", body := some "the script body",
                    cta := some "the cta", sceneBreakdown := some ["scene one", "scene two"] }
    visual := .error "exhausted retries"
    marketing := .ok { targetUrl := none, offerType := none }
    logic := .ok { isValid := true, report := "unused" } }

/-- C5 witness: the visual-failure run from the initial blueprint keeps the
research and script merges and the pre-run marketing default. -/
theorem claim5_witness :
    (startProtocol VIDEO_TYPES ∅ INITIAL_BLUEPRINT oraclesVisualFail).blueprint.seoData =
      { keywords := ["k1"], selectedTitle := "Title A" } ∧
    (startProtocol VIDEO_TYPES ∅ INITIAL_BLUEPRINT oraclesVisualFail).blueprint.marketingData =
      INITIAL_BLUEPRINT.marketingData ∧
    (startProtocol VIDEO_TYPES ∅ INITIAL_BLUEPRINT oraclesVisualFail).completed = ∅ := by
  have h := claim5_partial_failure_frame VIDEO_TYPES ∅ INITIAL_BLUEPRINT oraclesVisualFail
    { keywords := some ["k1"], selectedTitle := some "Title A" }
    { hook := some "the hook", body := some "the script body",
      cta := some "the cta", sceneBreakdown := some ["scene one", "scene two"] }
    "exhausted retries" rfl rfl rfl
  exact ⟨h.1, h.2.2.1, h.2.2.2.2.2.2.2.1⟩

/-- Oracle set for a successful run whose Logic Validator reports invalid. -/
def oraclesInvalid : Oracles :=
  { research := .ok { keywords := some ["k1"], selectedTitle := some "Title A" }
    script := .ok { hook := some "the hook", body := some "the script body",
                    cta := some "the cta", sceneBreakdown := some ["scene one"] }
    visual := .ok { imagePrompts := some ["p1"], videoPrompts := some ["v1"] }
    marketing := .ok { targetUrl := some "https://bad.example/", offerType := some "Paid" }
    logic := .ok { isValid := false, report := "URL mismatch" } }

/-- C6 witness: the invalid-validation run from the initial blueprint still
completes slot 1 and records the invalid status with an error-typed log. -/
theorem claim6_witness :
    (1 : Nat) ∈ (startProtocol VIDEO_TYPES ∅ INITIAL_BLUEPRINT oraclesInvalid).completed ∧
    (startProtocol VIDEO_TYPES ∅ INITIAL_BLUEPRINT oraclesInvalid).blueprint.marketingData.validationStatus =
      .invalid ∧
    (⟨"Palzani-O (Logic)", "Logic Error: URL mismatch", .error⟩ : LogEntry) ∈
      (startProtocol VIDEO_TYPES ∅ INITIAL_BLUEPRINT oraclesInvalid).logs := by
  have h := claim6_invalid_validation_completes VIDEO_TYPES ∅ INITIAL_BLUEPRINT oraclesInvalid
    { keywords := some ["k1"], selectedTitle := some "Title A" }
    { hook := some "the hook", body := some "the script body",
      cta := some "the cta", sceneBreakdown := some ["scene one"] }
    { imagePrompts := some ["p1"], videoPrompts := some ["v1"] }
    { targetUrl := some "https://bad.example/", offerType := some "Paid" }
    { isValid := false, report := "URL mismatch" }
    rfl rfl rfl rfl rfl
  exact ⟨h.1, (h.2.2.2.1 rfl).1, (h.2.2.2.1 rfl).2⟩

end Palzani
